import Mathlib

/-!
Shallow embedding of `src/amazing_automata.py` (AmazingAuto): a project
detector that classifies a source tree from filesystem evidence and a
pipeline generator that renders a CI document for one of three platforms.

Filesystem access in the Python code is mediated by `_read_*` helpers and a
glob predicate `_file_exists`; here the whole filesystem is abstracted as an
`Evidence` record whose fields are the possible results of those reads
(`none` models a missing or unreadable file, matching the `except: return
None` handlers) and whose `fileExists` field models the glob predicate.
All detector and generator functions are then pure functions of `Evidence`,
mirroring the Python, which holds no mutable state between calls.
-/

namespace AmazingAuto

/-- Decidable substring test, used for the Python `needle in haystack`
checks on file contents (all needles in the source are nonempty literals).
`splitOn` yields more than one piece exactly when the needle occurs. -/
def substrOf (needle hay : String) : Bool :=
  1 < (hay.splitOn needle).length

/-- Parsed `package.json`: the fields the detector reads.  `dependencies`
and `devDependencies` are the key sets of the two dicts. -/
structure PackageJson where
  dependencies : List String
  devDependencies : List String
  name : Option String
  keywords : List String
deriving Repr, DecidableEq

/-- Parsed `composer.json`: the detector only reads the keys of `require`. -/
structure ComposerJson where
  require : List String
deriving Repr, DecidableEq

/-- The filesystem evidence a single detection run can observe: results of
the `_read_*` helpers plus the `_file_exists` glob predicate.  `none` models
a missing/unreadable file (the Python helpers swallow all exceptions and
return `None`). `pyprojectToml` and `buildGradle` model the ad-hoc reads
inside `_detect_python_framework` / `_detect_java_framework`. -/
structure Evidence where
  packageJson : Option PackageJson
  requirementsTxt : Option (List String)
  pomXml : Option String
  goMod : Option String
  composerJson : Option ComposerJson
  csproj : Option String
  pyprojectToml : Option String
  buildGradle : Option String
  fileExists : String → Bool

/-- Result triple of `_detect_language_and_framework`.  The Python returns a
dict with keys `language`, `framework`, `type`; `framework` is a string in
every rule branch but `None` in the final fallback, hence `Option String`. -/
structure Detection where
  language : String
  framework : Option String
  type : String
deriving Repr, DecidableEq

/-- The `structure` dict built by `_analyze_structure`. -/
structure StructureFlags where
  monorepo : Bool
  microservices : Bool
  layered : Bool
  modular : Bool
  dockerized : Bool
deriving Repr, DecidableEq

/-- The `project_info` dict as returned by `ProjectDetector.detect` on its
success path (by then every placeholder has been overwritten: `structure`
holds the flags dict and `type` has been added by the detection update). -/
structure ProjectInfo where
  path : String
  language : String
  framework : Option String
  type : String
  struct : StructureFlags
  complexity : String
  dependencies : List String
  testing : Bool
  build_tools : List String
  deployment : List String
deriving Repr, DecidableEq

/-- `_detect_python_framework`: entry-file heuristics, then a text scan of
`pyproject.toml` (read via `try/except`, modelled by `Evidence.pyprojectToml`). -/
def detectPythonFramework (ev : Evidence) : String :=
  if ev.fileExists "manage.py" then "django"
  else if ev.fileExists "app.py" then "flask"
  else if ev.fileExists "main.py" then "fastapi"
  else
    match ev.pyprojectToml with
    | some content =>
        if substrOf "django" content.toLower || substrOf "name = \"Django\"" content then "django"
        else if substrOf "flask" content.toLower then "flask"
        else if substrOf "fastapi" content.toLower then "fastapi"
        else "unknown"
    | none => "unknown"

/-- `_detect_java_framework`: Application.java glob, then a text scan of
`build.gradle` (read via `try/except`, modelled by `Evidence.buildGradle`). -/
def detectJavaFramework (ev : Evidence) : String :=
  if ev.fileExists "src/main/java/**/Application.java" then "spring-boot"
  else
    match ev.buildGradle with
    | some g =>
        if substrOf "spring-boot" g.toLower || substrOf "springframework" g.toLower then
          "spring-boot"
        else "unknown"
    | none => "unknown"

/-- `_detect_go_framework`: substring scan of `go.mod` content (re-read via
`_read_go_mod`; the empty-string falsy case matches no needle either way). -/
def detectGoFramework (ev : Evidence) : String :=
  match ev.goMod with
  | some m =>
      if substrOf "gin-gonic/gin" m then "gin"
      else if substrOf "labstack/echo" m then "echo"
      else if substrOf "gofiber/fiber" m then "fiber"
      else "unknown"
  | none => "unknown"

/-- `_detect_csharp_framework`. -/
def detectCsharpFramework (ev : Evidence) : String :=
  if ev.fileExists "Startup.cs" then "aspnet-core" else "unknown"

/-- `_detect_php_framework`: `artisan` check, then membership of
`symfony/symfony` in the `require` keys of `composer.json` (re-read via
`_read_composer_json`; an empty dict reaches the same `unknown` result as a
missing one, since `require` is then absent). -/
def detectPhpFramework (ev : Evidence) : String :=
  if ev.fileExists "artisan" then "laravel"
  else if ev.fileExists "composer.json" then
    match ev.composerJson with
    | some c => if c.require.contains "symfony/symfony" then "symfony" else "unknown"
    | none => "unknown"
  else "unknown"

/-- The merged `all_deps = {**dependencies, **devDependencies}` key set:
membership in the merged dict is membership in either key list. -/
def PackageJson.allDeps (pkg : PackageJson) : List String :=
  pkg.dependencies ++ pkg.devDependencies

/-- The `package.json` rule block of `_detect_language_and_framework`:
the merged dependency key set is probed by an ordered chain of
`if ... return` rules; `none` means no rule fired and control falls through
to the later language checks.  (A truthy-but-matchless dict and a falsy
empty dict both fall through in the Python, so modelling presence by
`Option` is behaviour-preserving.) -/
def packageJsonDetection (pkg : PackageJson) : Option Detection :=
  if pkg.allDeps.contains "typescript" || pkg.allDeps.contains "ts-node" then
    some ⟨"typescript", some "typescript", "backend"⟩
  else if pkg.allDeps.contains "react-native" then
    some ⟨"javascript", some "react-native", "mobile"⟩
  else if pkg.allDeps.contains "react" || pkg.allDeps.contains "react-dom" then
    some ⟨"javascript", some "react", "frontend"⟩
  else if pkg.allDeps.contains "vue" || pkg.allDeps.contains "@vue/cli-service" then
    some ⟨"javascript", some "vue", "frontend"⟩
  else if pkg.allDeps.contains "@angular/core" || pkg.allDeps.contains "@angular/cli" then
    some ⟨"typescript", some "angular", "frontend"⟩
  else if ["express", "koa", "fastify", "nestjs"].any (fun d => pkg.allDeps.contains d) then
    some ⟨"javascript", some "nodejs", "backend"⟩
  else if pkg.name == some "express" || pkg.keywords.contains "express" then
    some ⟨"javascript", some "express", "backend"⟩
  else none

/-- Python truthiness of an optional list (`None` and `[]` are falsy). -/
def optListTruthy (o : Option (List String)) : Bool :=
  match o with
  | some l => !l.isEmpty
  | none => false

/-- Python truthiness of an optional string (`None` and `""` are falsy). -/
def optStrTruthy (o : Option String) : Bool :=
  match o with
  | some s => !(s == "")
  | none => false

/-- The non-package rules of `_detect_language_and_framework`: the
`if ... return` sequence that control reaches when no `package.json` rule
fired — Python, JVM, Go, native C, C#, PHP evidence checks, then the final
fallback `{unknown, None, unknown}`. -/
def fallbackDetection (ev : Evidence) : Detection :=
  if optListTruthy ev.requirementsTxt || ev.fileExists "requirements.txt"
      || ev.fileExists "pyproject.toml" then
    ⟨"python", some (detectPythonFramework ev), "backend"⟩
  else if optStrTruthy ev.pomXml || ev.fileExists "pom.xml"
      || ev.fileExists "build.gradle" then
    ⟨"java", some (detectJavaFramework ev), "backend"⟩
  else if optStrTruthy ev.goMod || ev.fileExists "go.mod" then
    ⟨"go", some (detectGoFramework ev), "backend"⟩
  else if ev.fileExists "Makefile" || ev.fileExists "CMakeLists.txt"
      || ev.fileExists "configure" || ev.fileExists "*.c" || ev.fileExists "*.h" then
    ⟨"c", some "unknown", "backend"⟩
  else if optStrTruthy ev.csproj || ev.fileExists "*.csproj" then
    ⟨"csharp", some (detectCsharpFramework ev), "backend"⟩
  else if ev.composerJson.isSome || ev.fileExists "composer.json" then
    ⟨"php", some (detectPhpFramework ev), "backend"⟩
  else
    ⟨"unknown", none, "unknown"⟩

/-- `_detect_language_and_framework`: the ordered decision list — the
`package.json` rule block first (its rules `return` directly), then the
remaining language checks of `fallbackDetection`. -/
def detectLanguageAndFramework (ev : Evidence) : Detection :=
  let fromPkg :=
    match ev.packageJson with
    | some pkg => packageJsonDetection pkg
    | none => none
  match fromPkg with
  | some d => d
  | none => fallbackDetection ev

/-- `_analyze_structure`: all five flags start `False`; monorepo,
microservices and dockerized are set by independent existence checks;
`layered` and `modular` are never assigned.  (The `language` argument of the
Python method is unused by its body.) -/
def analyzeStructure (ev : Evidence) (language : String) : StructureFlags :=
  let s : StructureFlags := ⟨false, false, false, false, false⟩
  let s := if ev.fileExists "lerna.json" || ev.fileExists "nx.json"
      || ev.fileExists "rush.json" then { s with monorepo := true } else s
  let s := if ev.fileExists "services" || ev.fileExists "microservices" then
      { s with microservices := true } else s
  let s := if ev.fileExists "Dockerfile" || ev.fileExists "docker-compose.yml"
      || ev.fileExists "docker-compose.yaml" then { s with dockerized := true } else s
  let _ := language
  s

/-- `_assess_complexity`: additive score over the `project_info` dict as it
stands at the call site, read through `.get` on the same field names. -/
def assessComplexity (p : ProjectInfo) : String :=
  let score : Nat :=
    (if p.dependencies.length > 50 then 2
     else if p.dependencies.length > 20 then 1 else 0)
    + (if p.struct.monorepo then 2 else 0)
    + (if p.struct.microservices then 2 else 0)
    + (if !p.testing then 1 else 0)
  if score ≥ 5 then "high"
  else if score ≥ 3 then "medium"
  else "low"

/-- `_detect_testing`: the per-language glob pattern table; a language other
than the five listed keys falls back to the JavaScript pattern set
(`test_patterns.get(language, test_patterns['javascript'])`). -/
def testPatterns (language : String) : List String :=
  if language == "javascript" then
    ["**/*.test.js", "**/*.spec.js", "**/tests/**", "**/__tests__/**"]
  else if language == "python" then ["**/*_test.py", "**/test_*.py", "**/tests/**"]
  else if language == "java" then ["**/*Test.java", "**/test/**"]
  else if language == "go" then ["**/*_test.go", "**/test/**"]
  else if language == "csharp" then ["**/*Test.cs", "**/Tests/**"]
  else ["**/*.test.js", "**/*.spec.js", "**/tests/**", "**/__tests__/**"]

/-- `_detect_testing`: true on the first matching pattern, else false. -/
def detectTesting (ev : Evidence) (language : String) : Bool :=
  (testPatterns language).any ev.fileExists

/-- `_detect_build_tools`: appends in the fixed source order. -/
def detectBuildTools (ev : Evidence) : List String :=
  (if ev.fileExists "webpack.config.js" then ["webpack"] else [])
  ++ (if ev.fileExists "vite.config.js" then ["vite"] else [])
  ++ (if ev.fileExists "Dockerfile" then ["docker"] else [])

/-- `_detect_deployment`: appends in the fixed source order. -/
def detectDeployment (ev : Evidence) : List String :=
  (if ev.fileExists "Dockerfile" then ["docker"] else [])
  ++ (if ev.fileExists "k8s" || ev.fileExists "kubernetes" then ["kubernetes"] else [])

/-- `ProjectDetector.detect`: the mutation sequence on the `project_info`
dict, in source order.  The initial dict holds `framework = "unknown"`,
`complexity = "low"`, empty `dependencies`, `testing = False`; the Python
also stores the placeholder string `"unknown"` under `structure` and has no
`type` key yet — both are overwritten/created by the updates below before
any read, so the record starts them at arbitrary defaults of the right
type.  Note the order: `complexity` is assessed (step `p3`) before
`testing` is detected (step `p4`). -/
def detect (path : String) (ev : Evidence) : ProjectInfo :=
  let p0 : ProjectInfo :=
    { path := path, language := "unknown", framework := some "unknown",
      type := "unknown", struct := ⟨false, false, false, false, false⟩,
      complexity := "low", dependencies := [], testing := false,
      build_tools := [], deployment := [] }
  let d := detectLanguageAndFramework ev
  let p1 := { p0 with language := d.language, framework := d.framework, type := d.type }
  let p2 := { p1 with struct := analyzeStructure ev p1.language }
  let p3 := { p2 with complexity := assessComplexity p2 }
  let p4 := { p3 with testing := detectTesting ev p3.language }
  let p5 := { p4 with build_tools := detectBuildTools ev }
  { p5 with deployment := detectDeployment ev }

/-- The `deployment` sub-dict of the caller config: `enabled`, `strategy`,
`imageName` as read through `.get` (absent keys are `none`; `enabled` is
only ever tested for truthiness, so a Bool suffices). -/
structure DeploymentCfg where
  enabled : Bool
  strategy : Option String
  imageName : Option String
deriving Repr, DecidableEq

/-- The caller-supplied generation config (a plain dict in the source). -/
structure Config where
  platform : Option String
  output_dir : Option String
  deployment : Option DeploymentCfg
deriving Repr, DecidableEq

/-- `config.get('deployment', {}).get('enabled')` as a Bool. -/
def Config.deployEnabled (c : Config) : Bool :=
  match c.deployment with
  | some d => d.enabled
  | none => false

/-- `config.get('deployment', {}).get('strategy')`. -/
def Config.deployStrategy (c : Config) : Option String :=
  match c.deployment with
  | some d => d.strategy
  | none => none

/-- `config.get('deployment', {}).get('imageName', 'myapp')`. -/
def Config.deployImageName (c : Config) : String :=
  match c.deployment with
  | some d => d.imageName.getD "myapp"
  | none => "myapp"

/-- A GitHub-Actions step dict: optional `uses`, optional `run`, and the
`with` parameter dict (key/value pairs in source order). -/
structure Step where
  name : String
  uses : Option String
  run : Option String
  withArgs : List (String × String)
deriving Repr, DecidableEq

/-- `_get_language_setup_steps`: one setup step per recognized language. -/
def getLanguageSetupSteps (info : ProjectInfo) : List Step :=
  if info.language == "javascript" then
    [⟨"Setup Node.js", some "actions/setup-node@v4", none,
      [("node-version", "18"), ("cache", "npm")]⟩]
  else if info.language == "python" then
    [⟨"Setup Python", some "actions/setup-python@v4", none, [("python-version", "3.9")]⟩]
  else if info.language == "typescript" then
    [⟨"Setup Node.js", some "actions/setup-node@v4", none,
      [("node-version", "18"), ("cache", "npm")]⟩]
  else if info.language == "c" then
    [⟨"Setup C environment", none,
      some "sudo apt-get update && sudo apt-get install -y build-essential gcc make", []⟩]
  else if info.language == "java" then
    [⟨"Setup Java", some "actions/setup-java@v3", none,
      [("java-version", "17"), ("distribution", "temurin")]⟩]
  else if info.language == "go" then
    [⟨"Setup Go", some "actions/setup-go@v4", none, [("go-version", "1.21")]⟩]
  else if info.language == "csharp" then
    [⟨"Setup .NET", some "actions/setup-dotnet@v3", none, [("dotnet-version", "6.0")]⟩]
  else []

/-- `_get_dependency_install_steps`. -/
def getDependencyInstallSteps (info : ProjectInfo) : List Step :=
  if info.language == "javascript" || info.language == "typescript" then
    [⟨"Install dependencies", none, some "npm ci", []⟩]
  else if info.language == "python" then
    [⟨"Install dependencies", none, some "pip install -r requirements.txt", []⟩]
  else if info.language == "java" then
    [⟨"Install dependencies", none, some "mvn dependency:resolve", []⟩]
  else if info.language == "go" then
    [⟨"Install dependencies", none, some "go mod download", []⟩]
  else if info.language == "csharp" then
    [⟨"Install dependencies", none, some "dotnet restore", []⟩]
  else []

/-- `_get_test_steps`. -/
def getTestSteps (info : ProjectInfo) : List Step :=
  if info.language == "javascript" || info.language == "typescript" then
    [⟨"Run tests", none, some "npm test", []⟩]
  else if info.language == "python" then
    [⟨"Run tests", none, some "python -m pytest", []⟩]
  else if info.language == "java" then
    [⟨"Run tests", none, some "mvn test", []⟩]
  else if info.language == "go" then
    [⟨"Run tests", none, some "go test ./...", []⟩]
  else if info.language == "csharp" then
    [⟨"Run tests", none, some "dotnet test", []⟩]
  else []

/-- `_get_build_steps`: JS/TS build only for framework react/vue/typescript;
compiled languages always. -/
def getBuildSteps (info : ProjectInfo) : List Step :=
  if info.language == "javascript" || info.language == "typescript" then
    if info.framework == some "react" || info.framework == some "vue"
        || info.framework == some "typescript" then
      [⟨"Build", none, some "npm run build", []⟩]
    else []
  else if info.language == "java" then
    [⟨"Build", none, some "mvn package", []⟩]
  else if info.language == "go" then
    [⟨"Build", none, some "go build -o app ./...", []⟩]
  else if info.language == "csharp" then
    [⟨"Build", none, some "dotnet build", []⟩]
  else if info.language == "c" then
    [⟨"Build", none, some "make || gcc -o app *.c || echo \"No standard build found\"", []⟩]
  else []

/-- `_get_docker_build_steps`. -/
def getDockerBuildSteps (info : ProjectInfo) : List Step :=
  let _ := info
  [⟨"Build Docker image", none, some "docker build -t myapp:$\x7b\x7b github.sha \x7d\x7d .", []⟩,
   ⟨"Test Docker image", none,
    some "docker run --rm myapp:$\x7b\x7b github.sha \x7d\x7d --version || echo \"No version flag\"", []⟩]

/-- `_get_docker_deploy_steps`: build and push, both interpolating the
configured image name (default `myapp`). -/
def getDockerDeploySteps (info : ProjectInfo) (cfg : Config) : List Step :=
  let _ := info
  let imageName := cfg.deployImageName
  [⟨"Build Docker image", none,
    some ("docker build -t " ++ imageName ++ ":$\x7b\x7b github.sha \x7d\x7d ."), []⟩,
   ⟨"Push to registry", none,
    some ("docker push " ++ imageName ++ ":$\x7b\x7b github.sha \x7d\x7d"), []⟩]

/-- `_get_kubernetes_deploy_steps`. -/
def getKubernetesDeploySteps (info : ProjectInfo) (cfg : Config) : List Step :=
  let _ := info
  let _ := cfg
  [⟨"Deploy to Kubernetes", none, some "kubectl apply -f k8s/", []⟩]

/-- `_generate_build_steps`: checkout, setup, install, tests only when
`project_info['testing']` is truthy, build, docker steps only when
`structure['dockerized']` is truthy. -/
def generateBuildSteps (info : ProjectInfo) (cfg : Config) : List Step :=
  let _ := cfg
  [(⟨"Checkout", some "actions/checkout@v4", none, []⟩ : Step)]
  ++ getLanguageSetupSteps info
  ++ getDependencyInstallSteps info
  ++ (if info.testing then getTestSteps info else [])
  ++ getBuildSteps info
  ++ (if info.struct.dockerized then getDockerBuildSteps info else [])

/-- `_generate_deploy_steps`: branch on `deployment.strategy`; anything
other than `docker`/`kubernetes` (including absent) yields no steps. -/
def generateDeploySteps (info : ProjectInfo) (cfg : Config) : List Step :=
  if cfg.deployStrategy == some "docker" then getDockerDeploySteps info cfg
  else if cfg.deployStrategy == some "kubernetes" then getKubernetesDeploySteps info cfg
  else []

/-- A job dict of the GitHub-Actions workflow. -/
structure GithubJob where
  runsOn : String
  needs : Option String
  onlyIf : Option String
  steps : List Step
deriving Repr, DecidableEq

/-- The GitHub-Actions workflow dict before `yaml.dump`: name, the fixed
push/pull-request triggers, the `build` job, and the `deploy` job when
deployment is enabled. -/
structure GithubWorkflow where
  name : String
  pushBranches : List String
  prBranches : List String
  build : GithubJob
  deploy : Option GithubJob
deriving Repr, DecidableEq

/-- A GitLab job dict. -/
structure GitlabJob where
  stage : String
  script : List String
  image : String
deriving Repr, DecidableEq

/-- The GitLab pipeline dict before `yaml.dump`: the `stages` header and
the variables dict (source key `variables`, renamed `vars` here as
`variables` is a Lean keyword) are always present; `build` and `test` jobs
are always assigned; the `deploy` job only when deployment is enabled. -/
structure GitlabPipeline where
  stages : List String
  vars : List (String × String)
  build : GitlabJob
  test : GitlabJob
  deploy : Option GitlabJob
deriving Repr, DecidableEq

/-- A Jenkins stage dict: stage name and its `sh` step commands. -/
structure JenkinsStage where
  stage : String
  steps : List String
deriving Repr, DecidableEq

/-- The Jenkins pipeline dict before `yaml.dump`.  `postAlways` models the
single `publishTestResults` post action as its test-results pattern. -/
structure JenkinsPipeline where
  agent : String
  stages : List JenkinsStage
  postAlways : List String
deriving Repr, DecidableEq

/-- The document a template hands to `yaml.dump`, kept structured here
(serialization itself is not modelled). -/
inductive PipelineDoc where
  | github : GithubWorkflow → PipelineDoc
  | gitlab : GitlabPipeline → PipelineDoc
  | jenkins : JenkinsPipeline → PipelineDoc
deriving Repr, DecidableEq

/-- A template's return dict: the (structured) content, the serialization
format tag, and the relative output filename. -/
structure Pipeline where
  content : PipelineDoc
  format : String
  filename : String
deriving Repr, DecidableEq

/-- `_generate_github_actions`.  The workflow name interpolates the stored
`framework` value (the `.get` default is dead since the key always exists;
a stored `None` renders as the f-string text `None`). -/
def githubWorkflow (info : ProjectInfo) (cfg : Config) : GithubWorkflow :=
  { name := (match info.framework with | some f => f | none => "None") ++ " CI/CD",
    pushBranches := ["main", "master", "develop"],
    prBranches := ["main", "master"],
    build := ⟨"ubuntu-latest", none, none, generateBuildSteps info cfg⟩,
    deploy :=
      if cfg.deployEnabled then
        some ⟨"ubuntu-latest", some "build",
          some "github.ref == \x27refs/heads/main\x27 && github.event_name == \x27push\x27",
          generateDeploySteps info cfg⟩
      else none }

/-- `_generate_github_actions`: wraps the workflow as a yaml document at
`.github/workflows/ci.yml`. -/
def generateGithubActions (info : ProjectInfo) (cfg : Config) : Pipeline :=
  ⟨.github (githubWorkflow info cfg), "yaml", ".github/workflows/ci.yml"⟩

/-- `_get_gitlab_variables` (constant). -/
def getGitlabVariables : List (String × String) :=
  [("NODE_VERSION", "18"), ("PYTHON_VERSION", "3.9"), ("JAVA_VERSION", "17")]

/-- `_get_gitlab_script`: per-stage, per-language command lists; the
trailing `return` catches a build/test stage with an unmatched language as
well as an unknown stage. -/
def getGitlabScript (stage : String) (info : ProjectInfo) : List String :=
  if stage == "build" then
    if info.language == "javascript" then ["npm ci", "npm run build"]
    else if info.language == "python" then ["pip install -r requirements.txt"]
    else if info.language == "java" then ["mvn clean package"]
    else if info.language == "go" then ["go mod download", "go build ./..."]
    else if info.language == "csharp" then ["dotnet restore", "dotnet build"]
    else ["echo \"Unknown stage\""]
  else if stage == "test" then
    if info.language == "javascript" then ["npm test"]
    else if info.language == "python" then ["python -m pytest"]
    else if info.language == "java" then ["mvn test"]
    else if info.language == "go" then ["go test ./..."]
    else if info.language == "csharp" then ["dotnet test"]
    else ["echo \"Unknown stage\""]
  else if stage == "deploy" then ["echo \"Deploy script would go here\""]
  else ["echo \"Unknown stage\""]

/-- `_get_gitlab_image`: per-language image table with `ubuntu:latest`
as the `.get` default. -/
def getGitlabImage (info : ProjectInfo) : String :=
  if info.language == "javascript" then "node:18"
  else if info.language == "python" then "python:3.9"
  else if info.language == "java" then "openjdk:17"
  else if info.language == "go" then "golang:1.21"
  else if info.language == "csharp" then "mcr.microsoft.com/dotnet/sdk:6.0"
  else "ubuntu:latest"

/-- `_generate_gitlab_job`. -/
def generateGitlabJob (stage : String) (info : ProjectInfo) (cfg : Config) : GitlabJob :=
  let _ := cfg
  ⟨stage, getGitlabScript stage info, getGitlabImage info⟩

/-- The GitLab pipeline dict built by `_generate_gitlab_ci`: the `stages`
header always lists build, test and deploy; `build` and `test` jobs are
always created; the `deploy` job only when deployment is enabled. -/
def gitlabPipeline (info : ProjectInfo) (cfg : Config) : GitlabPipeline :=
  { stages := ["build", "test", "deploy"],
    vars := getGitlabVariables,
    build := generateGitlabJob "build" info cfg,
    test := generateGitlabJob "test" info cfg,
    deploy :=
      if cfg.deployEnabled then some (generateGitlabJob "deploy" info cfg) else none }

/-- `_generate_gitlab_ci`: wraps the pipeline as a yaml document at
`.gitlab-ci.yml`. -/
def generateGitlabCi (info : ProjectInfo) (cfg : Config) : Pipeline :=
  ⟨.gitlab (gitlabPipeline info cfg), "yaml", ".gitlab-ci.yml"⟩

/-- `_generate_jenkins_stages`: a fixed two-stage list, independent of the
profile and the config. -/
def generateJenkinsStages (info : ProjectInfo) (cfg : Config) : List JenkinsStage :=
  let _ := info
  let _ := cfg
  [⟨"Build", ["echo \"Build step\""]⟩, ⟨"Test", ["echo \"Test step\""]⟩]

/-- `_get_jenkins_post_actions` (constant), condensed to the test-results
pattern of its single `publishTestResults` entry. -/
def getJenkinsPostActions (info : ProjectInfo) (cfg : Config) : List String :=
  let _ := info
  let _ := cfg
  ["**/test-results.xml"]

/-- The Jenkins pipeline dict built by `_generate_jenkins`: agent `any`,
the fixed stages, the post actions. -/
def jenkinsPipeline (info : ProjectInfo) (cfg : Config) : JenkinsPipeline :=
  { agent := "any",
    stages := generateJenkinsStages info cfg,
    postAlways := getJenkinsPostActions info cfg }

/-- `_generate_jenkins`: wraps the pipeline as a yaml document at the fixed
root-level `Jenkinsfile`. -/
def generateJenkins (info : ProjectInfo) (cfg : Config) : Pipeline :=
  ⟨.jenkins (jenkinsPipeline info cfg), "yaml", "Jenkinsfile"⟩

/-- A file write performed by `_save_pipeline`: target path and the
(structured) content written there. -/
structure FileWrite where
  path : String
  content : PipelineDoc
deriving Repr, DecidableEq

/-- The output-path computation of `_save_pipeline`:
`config.get('output_dir', project_info.get('path', '.'))`, coerced to `"."`
when falsy, joined with the template's filename. -/
def savePath (pipeline : Pipeline) (info : ProjectInfo) (cfg : Config) : String :=
  let outputDir := cfg.output_dir.getD info.path
  let outputDir := if outputDir == "" then "." else outputDir
  outputDir ++ "/" ++ pipeline.filename

/-- The success dict of `PipelineGenerator.generate`. -/
structure GenOut where
  pipeline : Pipeline
  output_file : String
  platform : String
deriving Repr, DecidableEq

/-- `PipelineGenerator.generate`: look the platform up in the template
table (`github-actions`, `gitlab-ci`, `jenkins`, with `github-actions` the
`.get` default), raise `ValueError` for anything else, otherwise run the
template and save the result.  The first component lists the file writes
the call performs (empty on the error path: the raise happens before
`_save_pipeline` runs). -/
def generate (info : ProjectInfo) (cfg : Config) :
    List FileWrite × Except String GenOut :=
  let platform := cfg.platform.getD "github-actions"
  let template : Option (ProjectInfo → Config → Pipeline) :=
    if platform = "github-actions" then some generateGithubActions
    else if platform = "gitlab-ci" then some generateGitlabCi
    else if platform = "jenkins" then some generateJenkins
    else none
  match template with
  | none => ([], .error ("Неподдерживаемая платформа: " ++ platform))
  | some t =>
    let pipeline := t info cfg
    let outputPath := savePath pipeline info cfg
    ([⟨outputPath, pipeline.content⟩], .ok ⟨pipeline, outputPath, platform⟩)

/-- A refactoring recommendation dict. -/
structure Recommendation where
  rtype : String
  message : String
  priority : String
deriving Repr, DecidableEq

/-- `AmazingAutomata.get_refactoring_recommendations`: three independent
rules appended in source order. -/
def getRefactoringRecommendations (info : ProjectInfo) : List Recommendation :=
  (if info.complexity == "high" then
    [⟨"complexity",
      "Проект имеет высокую сложность. Рекомендуется разбить на микросервисы.",
      "high"⟩]
   else [])
  ++ (if info.dependencies.length > 100 then
    [⟨"dependencies",
      "Большое количество зависимостей. Рассмотрите возможность оптимизации.",
      "medium"⟩]
   else [])
  ++ (if !info.testing then
    [⟨"testing", "Не обнаружены тесты. Рекомендуется добавить тестирование.", "high"⟩]
   else [])

/-- The complexity formula exactly as the spec words it, as a function of
the tuple `(dependency count, monorepo, microservices, testing)`: tiers
`>50 → +2`, `>20 → +1`, monorepo `+2`, microservices `+2`, no testing `+1`;
thresholds `≥5 → high`, `≥3 → medium`, else `low`.  Kept separate from
`assessComplexity` (which reads a `project_info` dict) so the two can be
compared. -/
def specComplexity (nDeps : Nat) (monorepo microservices testing : Bool) : String :=
  let score : Nat :=
    (if nDeps > 50 then 2 else if nDeps > 20 then 1 else 0)
    + (if monorepo then 2 else 0)
    + (if microservices then 2 else 0)
    + (if testing then 0 else 1)
  if score ≥ 5 then "high"
  else if score ≥ 3 then "medium"
  else "low"

/-- Fixture: an empty project tree — every read fails, every glob misses. -/
def evEmpty : Evidence :=
  { packageJson := none, requirementsTxt := none, pomXml := none, goMod := none,
    composerJson := none, csproj := none, pyprojectToml := none, buildGradle := none,
    fileExists := fun _ => false }

/-- Fixture: a tree with monorepo tooling (`lerna.json`), a `services`
directory and JavaScript-style test files, but no language manifests. -/
def evMonoMicroTests : Evidence :=
  { evEmpty with fileExists := fun p =>
      p == "lerna.json" || p == "services" || p == "**/*.test.js" }

/-- Fixture: a `package.json` listing `react` as a dependency and
`typescript` as a dev dependency. -/
def pkgTsReact : PackageJson :=
  { dependencies := ["react"], devDependencies := ["typescript"],
    name := none, keywords := [] }

/-- Fixture: a tree whose only evidence is `pkgTsReact`. -/
def evTsReact : Evidence :=
  { evEmpty with packageJson := some pkgTsReact }

/-- Fixture: a JavaScript/react profile with no tests detected. -/
def infoJsNoTests : ProjectInfo :=
  { path := "p", language := "javascript", framework := some "react",
    type := "frontend", struct := ⟨false, false, false, false, false⟩,
    complexity := "low", dependencies := [], testing := false,
    build_tools := [], deployment := [] }

/-- Fixture: config with no options set. -/
def cfgNone : Config := ⟨none, none, none⟩

/-- Fixture: jenkins platform with deployment enabled. -/
def cfgJenkinsDeploy : Config := ⟨some "jenkins", none, some ⟨true, none, none⟩⟩

/-- Fixture: deployment enabled, docker strategy, image name `svc`. -/
def cfgDockerSvc : Config :=
  ⟨some "github-actions", none, some ⟨true, some "docker", some "svc"⟩⟩

/-- Fixture: deployment enabled, kubernetes strategy. -/
def cfgK8s : Config :=
  ⟨some "github-actions", none, some ⟨true, some "kubernetes", none⟩⟩

/-- Fixture: deployment enabled with an unrecognized strategy. -/
def cfgOtherStrategy : Config :=
  ⟨some "github-actions", none, some ⟨true, some "ansible", none⟩⟩

/-- Fixture: an unsupported platform request. -/
def cfgCircleci : Config := ⟨some "circleci", none, none⟩

/-! ## General lemmas about the embedded functions -/

/-- `_assess_complexity` is the spec's formula applied to the dict fields it
reads: `(dependencies.length, structure.monorepo, structure.microservices,
testing)`. -/
theorem assessComplexity_eq_spec (p : ProjectInfo) :
    assessComplexity p =
      specComplexity p.dependencies.length p.struct.monorepo p.struct.microservices p.testing := by
  unfold assessComplexity specComplexity
  cases p.testing <;> rfl

/-- Every `package.json` rule assigns a concrete language, never `unknown`. -/
theorem packageJsonDetection_language_ne_unknown (pkg : PackageJson) (d : Detection)
    (h : packageJsonDetection pkg = some d) : ¬ d.language = "unknown" := by
  intro hl
  unfold packageJsonDetection at h
  repeat' split at h
  all_goals first
    | exact Option.noConfusion h
    | (injection h with h; subst h; exact absurd hl (by decide))

/-- If the non-package rules end at language `unknown`, they took the final
fallback, so the whole triple is `{unknown, None, unknown}`. -/
theorem fallbackDetection_of_unknown (ev : Evidence) :
    (fallbackDetection ev).language = "unknown" →
    fallbackDetection ev = ⟨"unknown", none, "unknown"⟩ := by
  unfold fallbackDetection
  repeat' split
  all_goals intro h
  all_goals first | rfl | simp at h

/-- A classification ending at language `unknown` is the full fallback
triple `{unknown, None, unknown}`: no rule of the decision list fired. -/
theorem detectLanguageAndFramework_of_unknown (ev : Evidence) :
    (detectLanguageAndFramework ev).language = "unknown" →
    detectLanguageAndFramework ev = ⟨"unknown", none, "unknown"⟩ := by
  unfold detectLanguageAndFramework
  cases hpkg : ev.packageJson with
  | none => exact fallbackDetection_of_unknown ev
  | some pkg =>
      cases hpd : packageJsonDetection pkg with
      | none => simp only [hpd]; exact fallbackDetection_of_unknown ev
      | some d =>
          simp only [hpd]
          intro h
          exact absurd h (packageJsonDetection_language_ne_unknown pkg d hpd)

/-- No language-setup step is named `Run tests`. -/
theorem getLanguageSetupSteps_no_test_name (info : ProjectInfo) :
    (getLanguageSetupSteps info).any (fun s => s.name == "Run tests") = false := by
  unfold getLanguageSetupSteps
  repeat' split
  all_goals rfl

/-- No dependency-install step is named `Run tests`. -/
theorem getDependencyInstallSteps_no_test_name (info : ProjectInfo) :
    (getDependencyInstallSteps info).any (fun s => s.name == "Run tests") = false := by
  unfold getDependencyInstallSteps
  repeat' split
  all_goals rfl

/-- No build step is named `Run tests`. -/
theorem getBuildSteps_no_test_name (info : ProjectInfo) :
    (getBuildSteps info).any (fun s => s.name == "Run tests") = false := by
  unfold getBuildSteps
  repeat' split
  all_goals rfl

/-- No docker build step is named `Run tests`. -/
theorem getDockerBuildSteps_no_test_name (info : ProjectInfo) :
    (getDockerBuildSteps info).any (fun s => s.name == "Run tests") = false := rfl

/-! ## Claim theorems -/

/-- C1, counterexample: on a tree with `lerna.json`, a `services` directory
and JavaScript-style test files, the returned profile has `testing = true`
but stored `complexity = "high"`, while the claimed formula applied to the
profile's own final fields gives `"medium"` — because `detect` assesses
complexity before it detects testing, the stored value does NOT agree with
the formula on the final `testing` field. -/
theorem complexity_disagrees_with_final_testing :
    (detect "p" evMonoMicroTests).testing = true
    ∧ (detect "p" evMonoMicroTests).complexity = "high"
    ∧ specComplexity (detect "p" evMonoMicroTests).dependencies.length
        (detect "p" evMonoMicroTests).struct.monorepo
        (detect "p" evMonoMicroTests).struct.microservices
        (detect "p" evMonoMicroTests).testing = "medium"
    ∧ ¬ (detect "p" evMonoMicroTests).complexity =
        specComplexity (detect "p" evMonoMicroTests).dependencies.length
          (detect "p" evMonoMicroTests).struct.monorepo
          (detect "p" evMonoMicroTests).struct.microservices
          (detect "p" evMonoMicroTests).testing := by
  refine ⟨rfl, rfl, rfl, ?_⟩
  decide

/-- C1 (amended): `_assess_complexity` is exactly the claimed pure function
of `(dependency count, monorepo, microservices, testing)` with the stated
weights and thresholds, and the complexity stored in the returned profile
equals that function applied to the profile's final dependency count and
structure flags but with `testing` taken as `false` (its pre-detection
default) — complexity is assessed before testing detection runs. -/
theorem complexity_formula_uses_predetection_testing (p : ProjectInfo)
    (path : String) (ev : Evidence) :
    assessComplexity p =
      specComplexity p.dependencies.length p.struct.monorepo p.struct.microservices p.testing
    ∧ (detect path ev).complexity =
      specComplexity (detect path ev).dependencies.length (detect path ev).struct.monorepo
        (detect path ev).struct.microservices false := by
  refine ⟨assessComplexity_eq_spec p, ?_⟩
  exact assessComplexity_eq_spec
    { path := path, language := (detectLanguageAndFramework ev).language,
      framework := (detectLanguageAndFramework ev).framework,
      type := (detectLanguageAndFramework ev).type,
      struct := analyzeStructure ev (detectLanguageAndFramework ev).language,
      complexity := "low", dependencies := [], testing := false,
      build_tools := [], deployment := [] }

/-- C2, counterexample: on an empty tree the profile has language and type
`unknown` but `framework = None` (the fallback stores `None`), not the
string `"unknown"` the claim states. -/
theorem unknown_tree_framework_is_none :
    (detect "p" evEmpty).language = "unknown"
    ∧ (detect "p" evEmpty).type = "unknown"
    ∧ (detect "p" evEmpty).framework = none
    ∧ ¬ (detect "p" evEmpty).framework = some "unknown" := by
  refine ⟨rfl, rfl, rfl, ?_⟩
  decide

/-- C2 (amended): whenever detection classifies a tree as language
`unknown`, the profile's framework is `None` (absent, rather than the
string `"unknown"`), its type is `"unknown"`, and every per-stage
step-catalog query (setup, install, test, build) yields an empty list. -/
theorem unknown_language_profile_and_empty_steps (path : String) (ev : Evidence)
    (h : (detect path ev).language = "unknown") :
    (detect path ev).framework = none ∧ (detect path ev).type = "unknown"
    ∧ getLanguageSetupSteps (detect path ev) = []
    ∧ getDependencyInstallSteps (detect path ev) = []
    ∧ getTestSteps (detect path ev) = []
    ∧ getBuildSteps (detect path ev) = [] := by
  have hd : detectLanguageAndFramework ev = ⟨"unknown", none, "unknown"⟩ :=
    detectLanguageAndFramework_of_unknown ev h
  refine ⟨?_, ?_, ?_, ?_, ?_, ?_⟩
  · show (detectLanguageAndFramework ev).framework = none
    rw [hd]
  · show (detectLanguageAndFramework ev).type = "unknown"
    rw [hd]
  · simp [getLanguageSetupSteps, h]
  · simp [getDependencyInstallSteps, h]
  · simp [getTestSteps, h]
  · simp [getBuildSteps, h]

/-- C2 witness: the amended theorem applied to the empty tree. -/
theorem unknown_language_profile_and_empty_steps_witness :
    (detect "w2" evEmpty).framework = none ∧ (detect "w2" evEmpty).type = "unknown"
    ∧ getLanguageSetupSteps (detect "w2" evEmpty) = []
    ∧ getDependencyInstallSteps (detect "w2" evEmpty) = []
    ∧ getTestSteps (detect "w2" evEmpty) = []
    ∧ getBuildSteps (detect "w2" evEmpty) = [] :=
  unknown_language_profile_and_empty_steps "w2" evEmpty rfl

/-- C3, counterexample: with deployment enabled, the Jenkins template still
produces only the fixed `Build` and `Test` stages — no deploy stage. -/
theorem jenkins_ignores_deploy_enabled :
    cfgJenkinsDeploy.deployEnabled = true
    ∧ (jenkinsPipeline infoJsNoTests cfgJenkinsDeploy).stages.map JenkinsStage.stage
        = ["Build", "Test"] :=
  ⟨rfl, rfl⟩

/-- C3 (amended): the github-actions and gitlab-ci templates include a
deploy job iff `deployment.enabled` (gitlab's `stages` header additionally
always lists `deploy`), but the jenkins template always emits exactly the
fixed `Build` and `Test` stages and never a deploy stage, regardless of the
configuration. -/
theorem deploy_job_iff_enabled_github_gitlab_never_jenkins
    (info : ProjectInfo) (cfg : Config) :
    (githubWorkflow info cfg).deploy.isSome = cfg.deployEnabled
    ∧ (gitlabPipeline info cfg).deploy.isSome = cfg.deployEnabled
    ∧ (gitlabPipeline info cfg).stages = ["build", "test", "deploy"]
    ∧ (jenkinsPipeline info cfg).stages.map JenkinsStage.stage = ["Build", "Test"] := by
  refine ⟨?_, ?_, rfl, rfl⟩ <;>
    cases hb : cfg.deployEnabled <;> simp [githubWorkflow, gitlabPipeline, hb]

/-- C4, counterexample: for a JavaScript profile with `testing = false` the
gitlab template still emits a test job whose script invokes `npm test`. -/
theorem gitlab_test_job_without_testing :
    infoJsNoTests.testing = false
    ∧ (gitlabPipeline infoJsNoTests cfgNone).test.script = ["npm test"] :=
  ⟨rfl, rfl⟩

/-- C4 (amended): only the github-actions template gates test steps on the
profile's testing flag: when `testing = false` its build job contains no
step named `Run tests`.  (The gitlab template emits its test job
unconditionally — see the counterexample — and the jenkins template always
emits its fixed `Test` echo stage.) -/
theorem github_no_test_steps_without_testing (info : ProjectInfo) (cfg : Config)
    (h : info.testing = false) :
    (generateBuildSteps info cfg).any (fun s => s.name == "Run tests") = false := by
  unfold generateBuildSteps
  rw [h]
  simp [List.any_append, getLanguageSetupSteps_no_test_name,
        getDependencyInstallSteps_no_test_name, getBuildSteps_no_test_name]
  cases hd : info.struct.dockerized <;> simp [getDockerBuildSteps]

/-- C4 witness: the amended theorem applied to a concrete no-testing
JavaScript profile. -/
theorem github_no_test_steps_without_testing_witness :
    (generateBuildSteps infoJsNoTests cfgNone).any (fun s => s.name == "Run tests") = false :=
  github_no_test_steps_without_testing infoJsNoTests cfgNone rfl

/-- C5: deploy-step generation follows `deployment.strategy`: `docker`
yields exactly the build and push steps, both referencing the configured
image name (default `myapp` when unset); `kubernetes` yields exactly one
`kubectl apply -f k8s/` step; any other or unset strategy yields no
steps. -/
theorem deploy_steps_follow_strategy (info : ProjectInfo) (cfg : Config) (d : DeploymentCfg)
    (h : cfg.deployment = some d) :
    (d.strategy = some "docker" →
      generateDeploySteps info cfg =
        [⟨"Build Docker image", none,
          some ("docker build -t " ++ d.imageName.getD "myapp" ++ ":$\x7b\x7b github.sha \x7d\x7d ."), []⟩,
         ⟨"Push to registry", none,
          some ("docker push " ++ d.imageName.getD "myapp" ++ ":$\x7b\x7b github.sha \x7d\x7d"), []⟩])
    ∧ (d.strategy = some "kubernetes" →
      generateDeploySteps info cfg =
        [⟨"Deploy to Kubernetes", none, some "kubectl apply -f k8s/", []⟩])
    ∧ (∀ s : String, d.strategy = some s → ¬ s = "docker" → ¬ s = "kubernetes" →
      generateDeploySteps info cfg = [])
    ∧ (d.strategy = none → generateDeploySteps info cfg = []) := by
  unfold generateDeploySteps getDockerDeploySteps getKubernetesDeploySteps
  unfold Config.deployStrategy Config.deployImageName
  simp only [h]
  refine ⟨?_, ?_, ?_, ?_⟩
  · intro hs; simp [hs]
  · intro hs; simp [hs]
  · intro s hs h1 h2; simp [hs, h1, h2]
  · intro hs; simp [hs]

/-- C5 witness: with `strategy = "docker"` and `imageName = "svc"` exactly
two steps are produced, both referencing the literal `svc`; the kubernetes
and unrecognized-strategy cases at concrete configs. -/
theorem deploy_steps_follow_strategy_witness :
    generateDeploySteps infoJsNoTests cfgDockerSvc =
      [⟨"Build Docker image", none, some "docker build -t svc:$\x7b\x7b github.sha \x7d\x7d .", []⟩,
       ⟨"Push to registry", none, some "docker push svc:$\x7b\x7b github.sha \x7d\x7d", []⟩]
    ∧ generateDeploySteps infoJsNoTests cfgK8s =
      [⟨"Deploy to Kubernetes", none, some "kubectl apply -f k8s/", []⟩]
    ∧ generateDeploySteps infoJsNoTests cfgOtherStrategy = [] :=
  ⟨(deploy_steps_follow_strategy infoJsNoTests cfgDockerSvc ⟨true, some "docker", some "svc"⟩ rfl).1 rfl,
   (deploy_steps_follow_strategy infoJsNoTests cfgK8s ⟨true, some "kubernetes", none⟩ rfl).2.1 rfl,
   (deploy_steps_follow_strategy infoJsNoTests cfgOtherStrategy ⟨true, some "ansible", none⟩ rfl).2.2.1
     "ansible" rfl (by decide) (by decide)⟩

/-- C6: when the merged direct+dev dependency set of the package manifest
contains a TypeScript marker (`typescript` or `ts-node`), classification
returns `{typescript, typescript, backend}` — in particular never framework
`react`, even when `react` is also among the dependencies: the TypeScript
rule strictly precedes the framework rules. -/
theorem typescript_marker_precedes_react (ev : Evidence) (pkg : PackageJson)
    (hpkg : ev.packageJson = some pkg)
    (hts : pkg.allDeps.contains "typescript" = true ∨ pkg.allDeps.contains "ts-node" = true)
    (hreact : pkg.allDeps.contains "react" = true) :
    detectLanguageAndFramework ev = ⟨"typescript", some "typescript", "backend"⟩
    ∧ ¬ (detectLanguageAndFramework ev).framework = some "react" := by
  have hr := hreact
  have hts' : "typescript" ∈ pkg.allDeps ∨ "ts-node" ∈ pkg.allDeps := by
    rcases hts with h | h
    · exact Or.inl (by simpa using h)
    · exact Or.inr (by simpa using h)
  have hd : detectLanguageAndFramework ev = ⟨"typescript", some "typescript", "backend"⟩ := by
    unfold detectLanguageAndFramework packageJsonDetection
    rw [hpkg]
    simp [hts']
  exact ⟨hd, by rw [hd]; simp⟩

/-- C6 witness: a manifest with `react` in dependencies and `typescript` in
dev dependencies classifies as typescript, not react. -/
theorem typescript_marker_precedes_react_witness :
    detectLanguageAndFramework evTsReact = ⟨"typescript", some "typescript", "backend"⟩
    ∧ ¬ (detectLanguageAndFramework evTsReact).framework = some "react" :=
  typescript_marker_precedes_react evTsReact pkgTsReact rfl (Or.inl rfl) rfl

/-- C7: for any platform other than the three recognized identifiers,
`generate` raises the unsupported-platform `ValueError` and performs no
file write (the write list is empty: the raise precedes `_save_pipeline`). -/
theorem unsupported_platform_errors_without_write (info : ProjectInfo) (cfg : Config)
    (p : String) (hp : cfg.platform = some p)
    (h1 : ¬ p = "github-actions") (h2 : ¬ p = "gitlab-ci") (h3 : ¬ p = "jenkins") :
    generate info cfg = ([], .error ("Неподдерживаемая платформа: " ++ p)) := by
  unfold generate
  rw [hp]
  simp [Option.getD, if_neg h1, if_neg h2, if_neg h3]

/-- C7 witness: requesting platform `circleci` errors with no write. -/
theorem unsupported_platform_errors_without_write_witness :
    generate infoJsNoTests cfgCircleci = ([], .error "Неподдерживаемая платформа: circleci") :=
  unsupported_platform_errors_without_write infoJsNoTests cfgCircleci "circleci" rfl
    (by decide) (by decide) (by decide)

/-- C8: detection is deterministic in the filesystem evidence — the
detector holds no state, so two runs over identical evidence return
identical profiles in every field. -/
theorem detect_deterministic (path : String) (ev1 ev2 : Evidence) (h : ev1 = ev2) :
    detect path ev1 = detect path ev2 := by rw [h]

/-- C8 witness: two runs over the same concrete tree agree. -/
theorem detect_deterministic_witness :
    detect "p" evMonoMicroTests = detect "p" evMonoMicroTests :=
  detect_deterministic "p" evMonoMicroTests evMonoMicroTests rfl

/-- C9: the returned profile's `dependencies` list is always empty — no
detection branch populates it — and consequently the dependency-reduction
recommendation (dependency count > 100) is never produced. -/
theorem dependencies_always_empty (path : String) (ev : Evidence) :
    (detect path ev).dependencies = []
    ∧ ((getRefactoringRecommendations (detect path ev)).filter
        (fun r => r.rtype == "dependencies")) = [] := by
  refine ⟨rfl, ?_⟩
  have hdep : (detect path ev).dependencies = [] := rfl
  unfold getRefactoringRecommendations
  rw [hdep]
  simp [List.filter_append]

/-- C10: the structure analyzer initializes `layered` and `modular` to
false and never sets them, so every returned profile has both false. -/
theorem layered_modular_never_set (path : String) (ev : Evidence) (lang : String) :
    (analyzeStructure ev lang).layered = false
    ∧ (analyzeStructure ev lang).modular = false
    ∧ (detect path ev).struct.layered = false
    ∧ (detect path ev).struct.modular = false := by
  have key : ∀ (e : Evidence) (l : String),
      (analyzeStructure e l).layered = false ∧ (analyzeStructure e l).modular = false := by
    intro e l
    unfold analyzeStructure
    repeat' split
    all_goals exact ⟨rfl, rfl⟩
  exact ⟨(key ev lang).1, (key ev lang).2,
    (key ev (detectLanguageAndFramework ev).language).1,
    (key ev (detectLanguageAndFramework ev).language).2⟩

end AmazingAuto
